import Mathlib

/-!
Verification of the generate-execute-validate agent loop (`agent.py`).

The development shallowly embeds:
* the pandas data the loop manipulates (`DataFrame`, column dtypes, cell
  values with a NaN marker, `pd.to_numeric(·, errors := coerce)`,
  `DataFrame.reset_index`, `DataFrame.equals`);
* the code-extraction step on the generator's response text
  (Python's `in`, `str.split`, `str.strip` on the fence markers);
* the execution-and-test harness `_execute_and_test_code` (the Python
  `exec` of candidate code is opaque and is supplied as an oracle
  outcome per attempt);
* the retry loop `run`, the constructor's filesystem effects, and the
  startup/credential/CLI path of `main`.
-/

/-- Column dtypes that occur in the agent's data flow. -/
inductive Dtype where
  | float64
  | int64
  | object
deriving DecidableEq, Repr

/-- A cell value: the NaN/null marker, a numeric value (rationals model
Python floats and ints by value, so `5.00` and `5.0` are the same value),
or a string. -/
inductive Val where
  | na
  | num (q : ℚ)
  | str (s : String)
deriving DecidableEq, Repr

/-- One pandas column: a name, a dtype and the cell values in row order. -/
structure Col where
  name : String
  dtype : Dtype
  cells : List Val
deriving DecidableEq, Repr

/-- A pandas DataFrame: columns in order plus the row index labels.
`pd.read_csv` and `parse` both produce rectangular frames whose columns
all have `index.length` cells. -/
structure DataFrame where
  cols : List Col
  index : List Nat
deriving DecidableEq, Repr

/-- Rectangularity: every column has exactly one cell per index label. -/
def DataFrame.Wf (df : DataFrame) : Prop :=
  ∀ c ∈ df.cols, c.cells.length = df.index.length

/-- The whitespace set of Python's `str.strip`. -/
def isPySpace (c : Char) : Bool :=
  c = ' ' || c = '\t' || c = '\n' || c = '\r' || c = '\x0b' || c = '\x0c'

/-- Python's `str.strip()`: drop leading and trailing whitespace. -/
def pyStrip (s : String) : String :=
  String.mk (((s.toList.dropWhile isPySpace).reverse.dropWhile isPySpace).reverse)

/-- Drop `sep` as a prefix of `s`, if it is one. -/
def dropPre : List Char → List Char → Option (List Char)
  | [], s => some s
  | _ :: _, [] => none
  | a :: sep, b :: s => if a = b then dropPre sep s else none

/-- Fuelled worker for Python's `str.split(sep)` with a non-empty `sep`:
scan left to right, cutting at each non-overlapping occurrence of `sep`.
The fuel is the length of the string, enough since every step consumes at
least one character. -/
def pySplitAux (sep : List Char) : Nat → List Char → List (List Char)
  | _, [] => [[]]
  | 0, s => [s]
  | fuel + 1, c :: rest =>
    match dropPre sep (c :: rest) with
    | some tail => [] :: pySplitAux sep fuel tail
    | none =>
      match pySplitAux sep fuel rest with
      | [] => [[c]]
      | chunk :: more => (c :: chunk) :: more

/-- Python's `s.split(sep)` for non-empty `sep`. -/
def pySplit (s sep : String) : List String :=
  (pySplitAux sep.toList s.toList.length s.toList).map String.mk

/-- Numeric value of a digit string (most significant first). -/
def digitsVal (l : List Char) : Nat :=
  l.foldl (fun a c => a * 10 + (c.toNat - 48)) 0

/-- Parse of one string by `pd.to_numeric`: optional sign, integer part,
optional decimal point and fraction. Returns the value together with a
flag telling whether the literal has float syntax (a decimal point), which
decides the dtype `to_numeric` gives an all-numeric object column. -/
def parseNumeric (s : String) : Option (ℚ × Bool) :=
  let t := (pyStrip s).toList
  let signed : ℤ × List Char :=
    match t with
    | '-' :: r => (-1, r)
    | '+' :: r => (1, r)
    | _ => (1, t)
  let sign := signed.1
  let t := signed.2
  let intPart := t.takeWhile Char.isDigit
  let rest := t.dropWhile Char.isDigit
  match rest with
  | [] =>
    if intPart.isEmpty then none
    else some (mkRat (sign * (digitsVal intPart : ℤ)) 1, false)
  | '.' :: fr =>
    if fr.all Char.isDigit && !(intPart.isEmpty && fr.isEmpty) then
      some (mkRat (sign * ((digitsVal intPart * 10 ^ fr.length + digitsVal fr : ℕ) : ℤ))
        (10 ^ fr.length), true)
    else none
  | _ => none

/-- `pd.to_numeric(cell, errors := coerce)` on one cell, with the
float-syntax flag (`true` forces a float64 result column). NaN forces
float64; a numeric cell keeps its value. -/
def toNumericCell : Val → Val × Bool
  | .na => (.na, true)
  | .num q => (.num q, decide (q.den ≠ 1))
  | .str s =>
    match parseNumeric s with
    | none => (.na, true)
    | some (q, f) => (.num q, f)

/-- `pd.to_numeric(column, errors := coerce)`: numeric dtypes pass through
unchanged; an object column is parsed cell-wise, the result dtype being
int64 exactly when every cell parsed as an integer literal. -/
def toNumericCol (c : Col) : Col :=
  match c.dtype with
  | .float64 => c
  | .int64 => c
  | .object =>
    let rs := c.cells.map toNumericCell
    let dt : Dtype := if rs.all (fun r => !r.2) then .int64 else .float64
    ⟨c.name, dt, rs.map Prod.fst⟩

/-- The three amount columns the agent coerces on the reference frame. -/
def amountCols : List String := ["Debit Amt", "Credit Amt", "Balance"]

/-- Lines 69-70 of `agent.py`: `expected_df[col] = pd.to_numeric(expected_df[col],
errors = coerce)` for the three amount columns. Indexing a missing column
raises `KeyError`, modelled as `none`. -/
def coerceAmounts (df : DataFrame) : Option DataFrame :=
  if amountCols.all (fun n => df.cols.any (fun c => c.name == n)) then
    some ⟨df.cols.map (fun c =>
      if amountCols.contains c.name then toNumericCol c else c), df.index⟩
  else none

/-- `df.reset_index(drop := True)`: the labels become `0, 1, ...`. -/
def resetIndex (df : DataFrame) : DataFrame :=
  ⟨df.cols, List.range df.index.length⟩

/-- `DataFrame.equals`: same index, and same columns — name, dtype and
cells per column, NaN equal to NaN, numbers by value. With columns
modelled structurally this is exactly frame equality. -/
def dfEquals (a b : DataFrame) : Bool :=
  decide (a = b)

/-- Python's `pat in s` for a non-empty pattern: splitting on the pattern
yields at least two chunks. -/
def pyContains (s pat : String) : Bool :=
  decide (2 ≤ (pySplit s pat).length)

/-- Lines 92-95 of `agent.py`:
```
code = response.text
if "```python" in code:
    code = code.split("```python\n")[1].split("```")[0]
code = code.strip()
```
`none` models the `IndexError` raised by `[1]` when the response contains
the marker without a following newline (one split chunk only). -/
def extractCode (text : String) : Option String :=
  if pyContains text "```python" then
    match pySplit text "```python\n" with
    | _ :: second :: _ => some (pyStrip ((pySplit second "```").headD second))
    | _ => none
  else
    some (pyStrip text)

/-- Lines 71-73 of `agent.py` on already-coerced frames: reset both row
indexes, then `actual_df.equals(expected_df)`. -/
def validationOk (actual expected' : DataFrame) : Bool :=
  dfEquals (resetIndex actual) (resetIndex expected')

/-- The whole comparison step on the raw reference frame: coerce the three
amount columns, reset both indexes, compare. `none` is the `KeyError` on a
reference without the amount columns. -/
def validate (actual expected : DataFrame) : Option Bool :=
  (coerceAmounts expected).map (fun e => validationOk actual e)

instance {α β : Type} [DecidableEq α] [DecidableEq β] : DecidableEq (Except α β) :=
  fun a b =>
    match a, b with
    | .ok x, .ok y => if h : x = y then isTrue (by rw [h]) else isFalse (by simp [h])
    | .error x, .error y => if h : x = y then isTrue (by rw [h]) else isFalse (by simp [h])
    | .ok _, .error _ => isFalse (by simp)
    | .error _, .ok _ => isFalse (by simp)

/-- Outcome of Python's `exec` of the candidate code followed by the
`parse` call — opaque to the model, supplied per attempt: either an
exception or a returned frame. -/
inductive ExecOutcome where
  | raises (msg : String)
  | returns (df : DataFrame)
deriving DecidableEq, Repr

/-- Observable result of `_execute_and_test_code`: the `(bool, str)` pair
the function returns, whether the `exec`/invoke branch was reached, and
the side-artifact CSV written on success. -/
structure ExecTestResult where
  ok : Bool
  msg : String
  executed : Bool
  outputCsv : Option DataFrame
deriving DecidableEq, Repr

/-- Lines 56-78 of `agent.py`, `_execute_and_test_code`: reject empty or
whitespace-only code before running anything; run the code (oracle `ex`);
on an exception return an execution failure; otherwise coerce the
reference's amount columns, reset both indexes and compare. The `Except`
layer models the uncaught `KeyError` raised after the `try` block when
the reference lacks an amount column. -/
def executeAndTestCode (code : String) (ex : ExecOutcome) (expected : DataFrame) :
    Except String ExecTestResult :=
  if pyStrip code = "" then
    .ok ⟨false, "LLM returned empty or invalid code.", false, none⟩
  else
    match ex with
    | .raises e => .ok ⟨false, "Code execution failed with error: " ++ e, true, none⟩
    | .returns df =>
      match coerceAmounts expected with
      | none => .error "KeyError: missing amount column"
      | some e' =>
        if validationOk df e' then
          .ok ⟨true, "✅ Success! Parser matched expected output.", true,
            some (resetIndex df)⟩
        else
          .ok ⟨false, "Data mismatch.", true, none⟩

/-- Outcome of the `generate_content` call, opaque to the model. -/
inductive GenResult where
  | raises (msg : String)
  | text (s : String)
deriving DecidableEq, Repr

/-- The per-attempt environment: what the generator does, and what
executing the candidate code does. -/
structure AttemptEnv where
  gen : GenResult
  exec : ExecOutcome
deriving DecidableEq, Repr

/-- How one iteration of the loop body ends: a success carrying the saved
code and the exported frame, a logged failure (`is_ok = False`), or an
exception reaching the loop's `except` clause. -/
inductive AttemptOutcome where
  | success (code : String) (out : Option DataFrame)
  | failure (msg : String)
  | raised (e : String)
deriving DecidableEq, Repr

/-- Lines 89-102 of `agent.py`, one iteration of the `try` body: call the
generator, extract the code, execute and test. A generator exception, the
extraction `IndexError` and the harness's escaped `KeyError` all reach the
`except` clause. -/
def attemptRun (expected : DataFrame) (env : AttemptEnv) : AttemptOutcome :=
  match env.gen with
  | .raises e => .raised e
  | .text s =>
    match extractCode s with
    | none => .raised "list index out of range"
    | some code =>
      match executeAndTestCode code env.exec expected with
      | .error e => .raised e
      | .ok r => if r.ok then .success code r.outputCsv else .failure r.msg

/-- Bool test used to state which attempts succeed. -/
def attemptIsSuccess (expected : DataFrame) (env : AttemptEnv) : Bool :=
  match attemptRun expected env with
  | .success _ _ => true
  | _ => false

/-- Terminal state of a run. -/
inductive RunState where
  | failed
  | succeeded
  | exhausted
deriving DecidableEq, Repr

/-- Everything observable about one `run()`: terminal state, number of
attempts made, parser artifacts saved, output CSVs written, log lines. -/
structure RunResult where
  state : RunState
  attempts : Nat
  artifacts : List String
  outputs : List DataFrame
  logs : List String
deriving DecidableEq, Repr

/-- `MAX_ATTEMPTS` (line 18 of `agent.py`). -/
def MAX_ATTEMPTS : Nat := 3

/-- Lines 87-105 of `agent.py`: the `for attempt in range(1, MAX_ATTEMPTS+1)`
loop, recursing on the remaining budget. A success saves the parser and
returns at once; a failure or a caught exception logs and continues; an
exhausted budget logs the summary warning. `made` counts attempts already
made, so the current attempt's ordinal is `made + 1`. -/
def runIter (expected : DataFrame) (envs : Nat → AttemptEnv) :
    Nat → Nat → List String → RunResult
  | 0, made, logs =>
    ⟨.exhausted, made, [], [], logs ++ ["All LLM attempts failed. No parser was saved."]⟩
  | fuel + 1, made, logs =>
    match attemptRun expected (envs made) with
    | .success code out =>
      ⟨.succeeded, made + 1, [code], out.toList,
        logs ++ ["✅ Success! Parser matched expected output.",
                 "Successfully saved final parser."]⟩
    | .failure m =>
      runIter expected envs fuel (made + 1)
        (logs ++ ["Attempt " ++ toString (made + 1) ++ " failed: " ++ m])
    | .raised e =>
      runIter expected envs fuel (made + 1)
        (logs ++ ["An unexpected error occurred in attempt " ++ toString (made + 1) ++ ": " ++ e])

/-- Lines 83-105 of `agent.py`, `run()`: validate the two input paths,
then iterate. The path checks are the two `exists()` results. -/
def run (target : String) (pdfExists csvExists : Bool) (expected : DataFrame)
    (envs : Nat → AttemptEnv) : RunResult :=
  if pdfExists && csvExists then
    runIter expected envs MAX_ATTEMPTS 0 ["Starting agent for target: " ++ target]
  else
    ⟨.failed, 0, [], [], ["Missing files."]⟩

/-- A filesystem as the list of existing paths. -/
def fsAdd (fs : List String) (p : String) : List String :=
  if p ∈ fs then fs else fs ++ [p]

/-- `data/{target}/{target}_sample.pdf` (line 25 of `agent.py`). -/
def pdfPath (target : String) : String :=
  "data/" ++ target ++ "/" ++ target ++ "_sample.pdf"

/-- `data/{target}/{target}_sample.csv` (line 26 of `agent.py`). -/
def csvPath (target : String) : String :=
  "data/" ++ target ++ "/" ++ target ++ "_sample.csv"

/-- `custom_parsers/{target}_parser.py` (line 80 of `agent.py`). -/
def parserPath (target : String) : String :=
  "custom_parsers/" ++ target ++ "_parser.py"

/-- `output/{target}_output.csv` (line 74 of `agent.py`). -/
def outputPath (target : String) : String :=
  "output/" ++ target ++ "_output.csv"

/-- Lines 28-30 of `agent.py`, the constructor's filesystem effects:
`output.mkdir(exist_ok = True)`, `custom_parsers.mkdir(exist_ok = True)`,
`(custom_parsers / __init__.py).touch()`. -/
def agentInitFs (fs : List String) : List String :=
  fsAdd (fsAdd (fsAdd fs "output") "custom_parsers") "custom_parsers/__init__.py"

/-- Constructing the agent and calling `run()`: the constructor's effects
happen first, then `_validate_paths` reads the two input paths, then the
loop; the saved parser and exported CSV are written into the filesystem.
Returns the final filesystem and the run result. -/
def agentRun (target : String) (fs : List String) (expected : DataFrame)
    (envs : Nat → AttemptEnv) : List String × RunResult :=
  let fs1 := agentInitFs fs
  let r := run target (decide (pdfPath target ∈ fs1)) (decide (csvPath target ∈ fs1))
    expected envs
  let fs2 := r.outputs.foldl (fun f _ => fsAdd f (outputPath target)) fs1
  let fs3 := r.artifacts.foldl (fun f _ => fsAdd f (parserPath target)) fs2
  (fs3, r)

/-- Modelled from the spec: the generator collaborator's configuration
step, whose body is inside the external `google.generativeai` library and
not in this repository. The spec states that absence of the credential is
a fatal startup error, so configuration fails exactly when the credential
is absent. -/
def configureGenerator (credential : Option String) : Except String Unit :=
  match credential with
  | none => .error "missing credential"
  | some _ => .ok ()

/-- Lines 12-17 of `agent.py`: the import-time `try` around
`genai.configure`; an exception there is logged and the process exits
with status 1. `some c` is an immediate exit with status `c`. -/
def startupExit (credential : Option String) : Option Nat :=
  match configureGenerator credential with
  | .error _ => some 1
  | .ok _ => none

/-- What a whole process invocation observably does: the exit status if it
exited early, and the run result if the run was reached. -/
structure ProcessResult where
  exitCode : Option Nat
  runResult : Option RunResult
  attemptsMade : Nat
deriving Repr

/-- Lines 106-114 of `agent.py` together with the import-time startup
block: configure the generator (exit 1 on failure, before anything else),
check the CLI arguments (exit 1 on a bad invocation), then construct the
agent and run. -/
def processMain (credential : Option String) (argvOk : Bool) (target : String)
    (fs : List String) (expected : DataFrame) (envs : Nat → AttemptEnv) : ProcessResult :=
  match startupExit credential with
  | some c => ⟨some c, none, 0⟩
  | none =>
    if argvOk then
      let r := (agentRun target fs expected envs).2
      ⟨none, some r, r.attempts⟩
    else
      ⟨some 1, none, 0⟩

/-- The interpreter's module table (`sys.modules`) plus a supply of fresh
namespace identities: `module_from_spec` always builds a brand-new module
object, modelled by handing out `nextId` and bumping it. -/
structure ModuleTable where
  entries : List (String × Nat)
  nextId : Nat
deriving DecidableEq, Repr

/-- Every registered namespace identity was handed out earlier. -/
def ModuleTable.Wf (mt : ModuleTable) : Prop :=
  ∀ p ∈ mt.entries, p.2 < mt.nextId

/-- Lines 60-64 of `agent.py`: build the module name
`custom_parsers.{target}_parser_{os.urandom(4).hex()}`, create a fresh
module object, `exec` the code into its namespace, and register it in
`sys.modules` — where it stays, nothing ever deletes it. Returns the new
table and the attempt's namespace identity. -/
def loadAndRegister (target rand : String) (mt : ModuleTable) : ModuleTable × Nat :=
  let name := "custom_parsers." ++ target ++ "_parser_" ++ rand
  (⟨mt.entries ++ [(name, mt.nextId)], mt.nextId + 1⟩, mt.nextId)

/-- The column names of a frame, in order. -/
def colNames (df : DataFrame) : List String :=
  df.cols.map Col.name

/-- The column dtypes of a frame, in order. -/
def colDtypes (df : DataFrame) : List Dtype :=
  df.cols.map Col.dtype

/-- The columns' cell lists, in order. -/
def colCells (df : DataFrame) : List (List Val) :=
  df.cols.map Col.cells

/-- The claim's reading of dataset equality: same column set in the same
order, same row count, and equal values in every cell (the null marker
equal to the null marker, numbers by value) — with no condition on
dtypes. -/
def sameValues (x y : DataFrame) : Bool :=
  decide (colNames x = colNames y ∧ x.index.length = y.index.length ∧
    colCells x = colCells y)

/-- Join lines with newlines (worker for the spec-side fence reading). -/
def joinWithNl : List String → List Char
  | [] => []
  | [x] => x.toList
  | x :: xs => x.toList ++ '\n' :: joinWithNl xs

/-- The spec's reading of "the content of the first fenced code block":
the text between the first ``` fence and the next one, with the fence's
info line and the final line break removed. -/
def firstFencedContent (s : String) : String :=
  match pySplit s "```" with
  | _ :: block :: _ =>
    match pySplit block "\n" with
    | _ :: rest =>
      let lines :=
        match rest.reverse with
        | "" :: r => r.reverse
        | _ => rest
      String.mk (joinWithNl lines)
    | [] => ""
  | _ => ""

/-- The spec's reading of "the response embeds a fenced code block": an
opening and a closing ``` fence occur. -/
def hasFencedBlock (s : String) : Bool :=
  decide (3 ≤ (pySplit s "```").length)

/-- The code-extraction step as the claim words it: the content of the
first fenced code block when one is embedded, the full trimmed response
text otherwise. -/
def specExtract (s : String) : String :=
  if hasFencedBlock s then firstFencedContent s else pyStrip s

/-- A well-formed reference frame whose amount columns are already
float64, used as concrete input data in the witnesses. -/
def refFloat : DataFrame :=
  ⟨[⟨"Debit Amt", .float64, [.num 5]⟩,
    ⟨"Credit Amt", .float64, [.na]⟩,
    ⟨"Balance", .float64, [.num 95]⟩], [0]⟩

/-- An attempt whose generator raises. -/
def envFail : AttemptEnv :=
  ⟨.raises "quota exceeded", .raises "unused"⟩

/-- An attempt that generates code whose execution returns `refFloat`,
hence validates against `refFloat`. -/
def envSuccess : AttemptEnv :=
  ⟨.text "import camelot", .returns refFloat⟩

/-- Environment whose first attempt fails and whose second succeeds. -/
def envsSecond : Nat → AttemptEnv :=
  fun i => if i = 0 then envFail else envSuccess

/-- Reference frame for the dtype counterexample of the validation claim:
the amount columns are object columns of decimal strings, so the coercion
step turns them into float64 columns. -/
def dfC1ref : DataFrame :=
  ⟨[⟨"Date", .object, [.str "01-01-2024"]⟩,
    ⟨"Description", .object, [.str "Coffee"]⟩,
    ⟨"Debit Amt", .object, [.str "5.0"]⟩,
    ⟨"Credit Amt", .float64, [.na]⟩,
    ⟨"Balance", .object, [.str "95.0"]⟩], [0]⟩

/-- Produced frame equal to the coerced `dfC1ref` in every cell value but
with an int64 Debit column instead of float64. -/
def dfC1prod : DataFrame :=
  ⟨[⟨"Date", .object, [.str "01-01-2024"]⟩,
    ⟨"Description", .object, [.str "Coffee"]⟩,
    ⟨"Debit Amt", .int64, [.num 5]⟩,
    ⟨"Credit Amt", .float64, [.na]⟩,
    ⟨"Balance", .float64, [.num 95]⟩], [0]⟩

/-- Produced frame for the dtype-sensitivity witness: int64 Debit. -/
def dfC10prod : DataFrame :=
  ⟨[⟨"Debit Amt", .int64, [.num 2]⟩,
    ⟨"Credit Amt", .float64, [.na]⟩,
    ⟨"Balance", .float64, [.num 9]⟩], [0]⟩

/-- Reference frame for the dtype-sensitivity witness: float64 Debit with
the same values. -/
def dfC10ref : DataFrame :=
  ⟨[⟨"Debit Amt", .float64, [.num 2]⟩,
    ⟨"Credit Amt", .float64, [.na]⟩,
    ⟨"Balance", .float64, [.num 9]⟩], [0]⟩

/-- A module table holding one earlier attempt's registered namespace. -/
def mt₀ : ModuleTable :=
  ⟨[("custom_parsers.icici_parser_ffffffff", 0)], 1⟩

/-! ### Helper lemmas -/

lemma range_eq_range_iff {m n : Nat} : List.range m = List.range n ↔ m = n := by
  constructor
  · intro h
    have := congrArg List.length h
    simpa using this
  · rintro rfl
    rfl

lemma cols_eq_of_maps : ∀ l₁ l₂ : List Col,
    l₁.map Col.name = l₂.map Col.name → l₁.map Col.dtype = l₂.map Col.dtype →
    l₁.map Col.cells = l₂.map Col.cells → l₁ = l₂
  | [], [], _, _, _ => rfl
  | [], _ :: _, h, _, _ => by simp at h
  | _ :: _, [], h, _, _ => by simp at h
  | c :: t, d :: t', h1, h2, h3 => by
    simp only [List.map_cons, List.cons.injEq] at h1 h2 h3
    have ht := cols_eq_of_maps t t' h1.2 h2.2 h3.2
    cases c
    cases d
    simp_all

lemma validation_iff (a e : DataFrame) :
    validationOk a e = true ↔
      (colNames a = colNames e ∧ colDtypes a = colDtypes e ∧
       colCells a = colCells e ∧ a.index.length = e.index.length) := by
  unfold validationOk dfEquals resetIndex
  rw [decide_eq_true_iff]
  constructor
  · intro h
    injection h with hc hi
    exact ⟨congrArg (List.map Col.name) hc, congrArg (List.map Col.dtype) hc,
      congrArg (List.map Col.cells) hc, range_eq_range_iff.mp hi⟩
  · rintro ⟨h1, h2, h3, h4⟩
    rw [cols_eq_of_maps a.cols e.cols h1 h2 h3, h4]

lemma attempt_not_success_shape (expected : DataFrame) (env : AttemptEnv)
    (h : attemptIsSuccess expected env = false) :
    (∃ m, attemptRun expected env = .failure m) ∨
    (∃ m, attemptRun expected env = .raised m) := by
  cases ha : attemptRun expected env with
  | success c o => simp [attemptIsSuccess, ha] at h
  | failure m => exact .inl ⟨m, rfl⟩
  | raised e => exact .inr ⟨e, rfl⟩

lemma runIter_artifacts_le (expected : DataFrame) (envs : Nat → AttemptEnv) :
    ∀ fuel made logs, (runIter expected envs fuel made logs).artifacts.length ≤ 1
  | 0, made, logs => by simp [runIter]
  | fuel + 1, made, logs => by
    cases ha : attemptRun expected (envs made) with
    | success c o => simp [runIter, ha]
    | failure m =>
      simpa [runIter, ha] using runIter_artifacts_le expected envs fuel (made + 1) _
    | raised e =>
      simpa [runIter, ha] using runIter_artifacts_le expected envs fuel (made + 1) _

lemma runIter_success_step (expected : DataFrame) (envs : Nat → AttemptEnv)
    (fuel made : Nat) (logs : List String) (c : String) (o : Option DataFrame)
    (h : attemptRun expected (envs made) = .success c o) :
    runIter expected envs (fuel + 1) made logs =
      ⟨.succeeded, made + 1, [c], o.toList,
        logs ++ ["✅ Success! Parser matched expected output.",
                 "Successfully saved final parser."]⟩ := by
  simp [runIter, h]

lemma runIter_skip_step (expected : DataFrame) (envs : Nat → AttemptEnv)
    (fuel made : Nat) (logs : List String)
    (h : attemptIsSuccess expected (envs made) = false) :
    ∃ msg, runIter expected envs (fuel + 1) made logs =
      runIter expected envs fuel (made + 1) (logs ++ [msg]) := by
  rcases attempt_not_success_shape expected (envs made) h with ⟨m, hm⟩ | ⟨m, hm⟩
  · exact ⟨"Attempt " ++ toString (made + 1) ++ " failed: " ++ m, by simp [runIter, hm]⟩
  · exact ⟨"An unexpected error occurred in attempt " ++ toString (made + 1) ++ ": " ++ m,
      by simp [runIter, hm]⟩

lemma run_true_eq (t : String) (e : DataFrame) (es : Nat → AttemptEnv) :
    run t true true e es =
      runIter e es MAX_ATTEMPTS 0 ["Starting agent for target: " ++ t] := rfl

lemma run_paths_failed (t : String) (pdfE csvE : Bool) (e : DataFrame)
    (es : Nat → AttemptEnv) (h : pdfE = false ∨ csvE = false) :
    run t pdfE csvE e es = ⟨.failed, 0, [], [], ["Missing files."]⟩ := by
  rcases h with h | h <;> subst h <;> simp [run]

lemma agentRun_missing (target : String) (fs : List String) (e : DataFrame)
    (es : Nat → AttemptEnv)
    (h : pdfPath target ∉ agentInitFs fs ∨ csvPath target ∉ agentInitFs fs) :
    (agentRun target fs e es).2 = ⟨.failed, 0, [], [], ["Missing files."]⟩ := by
  have hr : run target (decide (pdfPath target ∈ agentInitFs fs))
      (decide (csvPath target ∈ agentInitFs fs)) e es =
      ⟨.failed, 0, [], [], ["Missing files."]⟩ := by
    apply run_paths_failed
    rcases h with h | h
    · exact .inl (decide_eq_false h)
    · exact .inr (decide_eq_false h)
  simp only [agentRun, hr]

lemma mem_fsAdd_self (fs : List String) (p : String) : p ∈ fsAdd fs p := by
  unfold fsAdd
  split
  · assumption
  · simp

lemma mem_fsAdd_of_mem {x : String} (fs : List String) (p : String) (h : x ∈ fs) :
    x ∈ fsAdd fs p := by
  unfold fsAdd
  split
  · exact h
  · exact List.mem_append_left _ h

lemma mem_foldl_fsAdd {β : Type} {x : String} (p : String) (l : List β)
    (fs : List String) (h : x ∈ fs) : x ∈ l.foldl (fun f _ => fsAdd f p) fs := by
  induction l generalizing fs with
  | nil => exact h
  | cons b t ih => exact ih _ (mem_fsAdd_of_mem _ _ h)

lemma init_mem (fs : List String) :
    "output" ∈ agentInitFs fs ∧ "custom_parsers" ∈ agentInitFs fs ∧
    "custom_parsers/__init__.py" ∈ agentInitFs fs := by
  unfold agentInitFs
  exact ⟨mem_fsAdd_of_mem _ _ (mem_fsAdd_of_mem _ _ (mem_fsAdd_self _ _)),
    mem_fsAdd_of_mem _ _ (mem_fsAdd_self _ _), mem_fsAdd_self _ _⟩

/-! ### Claim theorems -/

/-- C1 counterexample: the validation step is not characterized by the
value-only conditions the claim states. `dfC1prod` and the coerced
`dfC1ref` have the same column names in the same order, the same row
count, and equal values in every cell (null marker equal to null marker,
numbers by value), yet validation classifies a mismatch, because the
Debit column is int64 on one side and float64 on the other. -/
theorem validation_not_value_only :
    validate dfC1prod dfC1ref = some false ∧
    (coerceAmounts dfC1ref).map
      (fun e => sameValues (resetIndex dfC1prod) (resetIndex e)) = some true := by
  decide

/-- C1 (amended): after coercing the reference's three amount columns and
resetting both row indexes, validation succeeds if and only if the two
frames have the same column names in the same order, the same per-column
dtypes, equal values in every cell (null marker equal to null marker,
numeric equality by value) and the same row count; in particular a frame
with correct values in a permuted row order has different values in some
cell position and is classified as a mismatch. -/
theorem validation_success_iff (a e e' : DataFrame)
    (h : coerceAmounts e = some e') :
    validate a e = some true ↔
      (colNames a = colNames e' ∧ colDtypes a = colDtypes e' ∧
       colCells a = colCells e' ∧ a.index.length = e'.index.length) := by
  unfold validate
  rw [h]
  simp only [Option.map_some', Option.some.injEq]
  exact validation_iff a e'

/-- C1 witness: a produced frame identical to the (already float64)
reference validates successfully. -/
theorem validation_success_iff_witness : validate refFloat refFloat = some true :=
  (validation_success_iff refFloat refFloat refFloat (by decide)).mpr
    (by exact ⟨rfl, rfl, rfl, rfl⟩)

/-- C2: attempts are sequential and the first success short-circuits: if
the attempts before `k` are not successes and attempt `k` succeeds with
code `c`, the run makes exactly `k + 1` attempts, ends `succeeded`, and
persists exactly `[c]`; moreover every run whatsoever persists at most
one artifact. -/
theorem run_first_success_stops (target : String) (expected : DataFrame)
    (envs : Nat → AttemptEnv) (k : Nat) (c : String) (o : Option DataFrame)
    (hk : k < MAX_ATTEMPTS)
    (hfail : ∀ i, i < k → attemptIsSuccess expected (envs i) = false)
    (hsucc : attemptRun expected (envs k) = .success c o) :
    (∀ (t : String) (p q : Bool) (e : DataFrame) (es : Nat → AttemptEnv),
        (run t p q e es).artifacts.length ≤ 1) ∧
    (run target true true expected envs).state = .succeeded ∧
    (run target true true expected envs).attempts = k + 1 ∧
    (run target true true expected envs).artifacts = [c] := by
  constructor
  · intro t p q e es
    unfold run
    split
    · exact runIter_artifacts_le e es MAX_ATTEMPTS 0 _
    · simp
  · have hk3 : k < 3 := hk
    rw [run_true_eq]
    interval_cases k
    · rw [show MAX_ATTEMPTS = 2 + 1 from rfl,
        runIter_success_step expected envs 2 0 _ c o hsucc]
      exact ⟨rfl, rfl, rfl⟩
    · obtain ⟨m0, h0⟩ := runIter_skip_step expected envs 2 0
        ["Starting agent for target: " ++ target] (hfail 0 (by norm_num))
      rw [show MAX_ATTEMPTS = 2 + 1 from rfl, h0, show (2 : Nat) = 1 + 1 from rfl,
        runIter_success_step expected envs 1 1 _ c o hsucc]
      exact ⟨rfl, rfl, rfl⟩
    · obtain ⟨m0, h0⟩ := runIter_skip_step expected envs 2 0
        ["Starting agent for target: " ++ target] (hfail 0 (by norm_num))
      obtain ⟨m1, h1⟩ := runIter_skip_step expected envs 1 1
        (["Starting agent for target: " ++ target] ++ [m0]) (hfail 1 (by norm_num))
      rw [show MAX_ATTEMPTS = 2 + 1 from rfl, h0, show (2 : Nat) = 1 + 1 from rfl, h1,
        show (1 : Nat) = 0 + 1 from rfl,
        runIter_success_step expected envs 0 2 _ c o hsucc]
      exact ⟨rfl, rfl, rfl⟩

/-- C2 witness: with a failing first attempt and a succeeding second one,
the run stops after two attempts with exactly that artifact. -/
theorem run_first_success_stops_witness :
    (run "icici" true true refFloat envsSecond).state = .succeeded ∧
    (run "icici" true true refFloat envsSecond).attempts = 2 ∧
    (run "icici" true true refFloat envsSecond).artifacts = ["import camelot"] := by
  have h := run_first_success_stops "icici" refFloat envsSecond 1 "import camelot"
    (some (resetIndex refFloat)) (by decide) (by decide) (by decide)
  exact ⟨h.2.1, h.2.2.1, h.2.2.2⟩

/-- C3: when no attempt succeeds, the run makes exactly `MAX_ATTEMPTS = 3`
attempts, persists nothing, writes no output export, logs the summary
warning, and ends in the non-exceptional `exhausted` state (the model's
`run` is a total function into `RunResult`: every attempt-level exception
is consumed by the loop's handler and never propagates). -/
theorem run_exhausted (target : String) (expected : DataFrame)
    (envs : Nat → AttemptEnv)
    (hfail : ∀ i, i < MAX_ATTEMPTS → attemptIsSuccess expected (envs i) = false) :
    (run target true true expected envs).state = .exhausted ∧
    (run target true true expected envs).attempts = MAX_ATTEMPTS ∧
    (run target true true expected envs).artifacts = [] ∧
    (run target true true expected envs).outputs = [] ∧
    "All LLM attempts failed. No parser was saved." ∈
      (run target true true expected envs).logs := by
  obtain ⟨m0, h0⟩ := runIter_skip_step expected envs 2 0
    ["Starting agent for target: " ++ target] (hfail 0 (by decide))
  obtain ⟨m1, h1⟩ := runIter_skip_step expected envs 1 1
    (["Starting agent for target: " ++ target] ++ [m0]) (hfail 1 (by decide))
  obtain ⟨m2, h2⟩ := runIter_skip_step expected envs 0 2
    (["Starting agent for target: " ++ target] ++ [m0] ++ [m1]) (hfail 2 (by decide))
  rw [run_true_eq, show MAX_ATTEMPTS = 2 + 1 from rfl, h0,
    show (2 : Nat) = 1 + 1 from rfl, h1, show (1 : Nat) = 0 + 1 from rfl, h2]
  refine ⟨rfl, rfl, rfl, rfl, ?_⟩
  simp [runIter]

/-- C3 witness: a run whose generator raises on every attempt exhausts the
budget with no artifact. -/
theorem run_exhausted_witness :
    (run "icici" true true refFloat (fun _ => envFail)).state = .exhausted ∧
    (run "icici" true true refFloat (fun _ => envFail)).attempts = MAX_ATTEMPTS ∧
    (run "icici" true true refFloat (fun _ => envFail)).artifacts = [] := by
  have h := run_exhausted "icici" refFloat (fun _ => envFail) (by decide)
  exact ⟨h.1, h.2.1, h.2.2.1⟩

/-- C4 counterexample: a response embedding a plain (unlabelled) fenced
code block whose content is `x = 1`. The claim says extraction takes the
content of the first fenced block; the code only recognizes the
```` ```python ```` marker and therefore returns the full trimmed
response, fences included. -/
theorem extraction_misses_plain_fence :
    specExtract "```\nx = 1\n```" = "x = 1" ∧
    extractCode "```\nx = 1\n```" = some "```\nx = 1\n```" := by
  decide

/-- C4 (amended): extraction keys on the ```` ```python ```` marker, not
on fenced blocks in general. If the response does not contain
```` ```python ````, the full stripped response text is taken; if it
contains ```` ```python ```` followed by a newline, the chunk after the
first such marker, cut at the next ```` ``` ```` fence and stripped, is
taken; if it contains ```` ```python ```` but never followed by a
newline, the extraction raises an in-attempt `IndexError` (caught by the
loop, failing the attempt). -/
theorem extraction_characterization (text : String) :
    (pyContains text "```python" = false → extractCode text = some (pyStrip text)) ∧
    (∀ first second rest, pyContains text "```python" = true →
        pySplit text "```python\n" = first :: second :: rest →
        extractCode text = some (pyStrip ((pySplit second "```").headD second))) ∧
    (pyContains text "```python" = true → (pySplit text "```python\n").length < 2 →
        extractCode text = none) := by
  refine ⟨?_, ?_, ?_⟩
  · intro h
    simp [extractCode, h]
  · intro first second rest h hs
    simp [extractCode, h, hs]
  · intro h hlen
    cases hs : pySplit text "```python\n" with
    | nil => simp [extractCode, h, hs]
    | cons a t =>
      cases t with
      | nil => simp [extractCode, h, hs]
      | cons b t' =>
        rw [hs] at hlen
        simp at hlen
        omega

/-- C4 witness: a response with a python-labelled fence extracts to the
fence's stripped content. -/
theorem extraction_characterization_witness :
    extractCode "pre ```python\nw = 3\n``` post" = some "w = 3" := by
  have h := (extraction_characterization "pre ```python\nw = 3\n``` post").2.1
    "pre " "w = 3\n``` post" [] (by decide) (by decide)
  rw [h]
  decide

/-- C5: with the generator credential absent, the process exits with
status 1 at startup: no run is entered and zero attempts are made,
whatever the CLI arguments, filesystem, reference data and attempt
environments would have been. -/
theorem missing_credential_exits (argvOk : Bool) (target : String)
    (fs : List String) (expected : DataFrame) (envs : Nat → AttemptEnv) :
    processMain none argvOk target fs expected envs = ⟨some 1, none, 0⟩ := rfl

/-- C6: when the sample-document path or the reference-dataset path does
not exist at validation time, the run ends in the `failed` state with
zero attempts and nothing persisted (and, the model's `run` being a total
function, no exception escapes). -/
theorem run_missing_inputs_failed (target : String) (fs : List String)
    (expected : DataFrame) (envs : Nat → AttemptEnv)
    (h : pdfPath target ∉ agentInitFs fs ∨ csvPath target ∉ agentInitFs fs) :
    (agentRun target fs expected envs).2.state = .failed ∧
    (agentRun target fs expected envs).2.attempts = 0 ∧
    (agentRun target fs expected envs).2.artifacts = [] := by
  rw [agentRun_missing target fs expected envs h]
  exact ⟨rfl, rfl, rfl⟩

/-- C6 witness: on an empty filesystem the sample document is missing, so
the run fails with no attempts. -/
theorem run_missing_inputs_failed_witness :
    (agentRun "icici" [] refFloat (fun _ => envFail)).2.state = .failed ∧
    (agentRun "icici" [] refFloat (fun _ => envFail)).2.attempts = 0 ∧
    (agentRun "icici" [] refFloat (fun _ => envFail)).2.artifacts = [] :=
  run_missing_inputs_failed "icici" [] refFloat (fun _ => envFail) (.inl (by decide))

/-- C7: empty or whitespace-only code is rejected by the harness before
the `exec` branch, with the fixed diagnostic, `executed = false`, and no
output written — uniformly in the execution oracle, so the `exec`/invoke
branch is unreachable for such input. -/
theorem empty_code_never_executed (code : String) (ex : ExecOutcome)
    (expected : DataFrame) (h : pyStrip code = "") :
    executeAndTestCode code ex expected =
      .ok ⟨false, "LLM returned empty or invalid code.", false, none⟩ := by
  simp [executeAndTestCode, h]

/-- C7 witness: whitespace-only code is rejected unexecuted. -/
theorem empty_code_never_executed_witness :
    executeAndTestCode "  \n\t " (.returns refFloat) refFloat =
      .ok ⟨false, "LLM returned empty or invalid code.", false, none⟩ :=
  empty_code_never_executed "  \n\t " (.returns refFloat) refFloat (by decide)

/-- C8 counterexample: after an attempt loads and registers candidate
code, the attempt's namespace is still present in the interpreter's
module table — `sys.modules[module_name] = module` is never undone — so
the namespace is not discarded after the attempt, contrary to the
claim. -/
theorem namespace_not_discarded :
    ("custom_parsers.icici_parser_ab12cd34",
      (loadAndRegister "icici" "ab12cd34" ⟨[], 0⟩).2)
      ∈ (loadAndRegister "icici" "ab12cd34" ⟨[], 0⟩).1.entries := by
  decide

/-- C8 (amended): every attempt executes the candidate code in a newly
created namespace object that is never a reuse of any previously
registered attempt's namespace (so no prior attempt's execution state is
mutated or reused), and after the attempt the namespace remains
registered in the interpreter's module table under its randomly suffixed
name rather than being discarded; the freshness invariant is preserved
across attempts. -/
theorem fresh_namespace_each_attempt (target rand : String) (mt : ModuleTable)
    (hwf : mt.Wf) :
    ((loadAndRegister target rand mt).2 ∉ mt.entries.map Prod.snd) ∧
    ("custom_parsers." ++ target ++ "_parser_" ++ rand,
      (loadAndRegister target rand mt).2) ∈ (loadAndRegister target rand mt).1.entries ∧
    (loadAndRegister target rand mt).1.Wf := by
  refine ⟨?_, ?_, ?_⟩
  · intro hmem
    simp only [loadAndRegister, List.mem_map] at hmem
    obtain ⟨p, hp, hq⟩ := hmem
    exact absurd (hq ▸ hwf p hp) (lt_irrefl _)
  · simp [loadAndRegister]
  · dsimp only [loadAndRegister, ModuleTable.Wf]
    intro p hp
    rcases List.mem_append.mp hp with hp | hp
    · exact Nat.lt_succ_of_lt (hwf p hp)
    · rcases List.mem_singleton.mp hp with rfl
      exact Nat.lt_succ_self _

/-- C8 witness: against a table already holding one registered attempt,
the next attempt's namespace is fresh and gets registered. -/
theorem fresh_namespace_each_attempt_witness :
    ((loadAndRegister "icici" "ab12cd34" mt₀).2 ∉ mt₀.entries.map Prod.snd) ∧
    ("custom_parsers.icici_parser_ab12cd34",
      (loadAndRegister "icici" "ab12cd34" mt₀).2) ∈
      (loadAndRegister "icici" "ab12cd34" mt₀).1.entries := by
  have h := fresh_namespace_each_attempt "icici" "ab12cd34" mt₀
    (by simp [ModuleTable.Wf, mt₀])
  exact ⟨h.1, h.2.1⟩

/-- C9: constructing the agent creates the output directory, the parser
directory and the package marker file before input-path validation, so
they exist in the final filesystem of every run — in particular also when
the input paths are missing and the run fails with zero attempts. -/
theorem constructor_creates_dirs (target : String) (fs : List String)
    (expected : DataFrame) (envs : Nat → AttemptEnv) :
    ("output" ∈ (agentRun target fs expected envs).1 ∧
     "custom_parsers" ∈ (agentRun target fs expected envs).1 ∧
     "custom_parsers/__init__.py" ∈ (agentRun target fs expected envs).1) ∧
    ((pdfPath target ∉ agentInitFs fs ∨ csvPath target ∉ agentInitFs fs) →
      (agentRun target fs expected envs).2.state = .failed ∧
      (agentRun target fs expected envs).2.attempts = 0) := by
  constructor
  · have h := init_mem fs
    dsimp only [agentRun]
    exact ⟨mem_foldl_fsAdd _ _ _ (mem_foldl_fsAdd _ _ _ h.1),
      mem_foldl_fsAdd _ _ _ (mem_foldl_fsAdd _ _ _ h.2.1),
      mem_foldl_fsAdd _ _ _ (mem_foldl_fsAdd _ _ _ h.2.2)⟩
  · intro h
    rw [agentRun_missing target fs expected envs h]
    exact ⟨rfl, rfl⟩

/-- C9 witness: on an empty filesystem the three paths are created even
though the run fails with zero attempts. -/
theorem constructor_creates_dirs_witness :
    ("output" ∈ (agentRun "icici" [] refFloat (fun _ => envFail)).1 ∧
     "custom_parsers" ∈ (agentRun "icici" [] refFloat (fun _ => envFail)).1 ∧
     "custom_parsers/__init__.py" ∈ (agentRun "icici" [] refFloat (fun _ => envFail)).1) ∧
    ((agentRun "icici" [] refFloat (fun _ => envFail)).2.state = .failed ∧
     (agentRun "icici" [] refFloat (fun _ => envFail)).2.attempts = 0) := by
  have h := constructor_creates_dirs "icici" [] refFloat (fun _ => envFail)
  exact ⟨h.1, h.2 (.inl (by decide))⟩

/-- C10: validation is dtype-sensitive. For any produced frame whose
column names, row count and cell values all agree with the coerced
reference but whose dtype sequence differs (say an int64 amount column
against float64), the harness reports the generic data mismatch. -/
theorem validation_dtype_sensitive (code : String) (actual expected e' : DataFrame)
    (hcode : pyStrip code ≠ "")
    (he : coerceAmounts expected = some e')
    (hnames : colNames actual = colNames e')
    (hcells : colCells actual = colCells e')
    (hlen : actual.index.length = e'.index.length)
    (hdt : colDtypes actual ≠ colDtypes e') :
    executeAndTestCode code (.returns actual) expected =
      .ok ⟨false, "Data mismatch.", true, none⟩ := by
  have hv : validationOk actual e' = false := by
    cases hvv : validationOk actual e' with
    | false => rfl
    | true => exact absurd ((validation_iff actual e').mp hvv).2.1 hdt
  simp [executeAndTestCode, hcode, he, hv]

/-- C10 witness: equal values, int64 against float64 Debit column, the
harness reports a mismatch. -/
theorem validation_dtype_sensitive_witness :
    executeAndTestCode "c" (.returns dfC10prod) dfC10ref =
      .ok ⟨false, "Data mismatch.", true, none⟩ :=
  validation_dtype_sensitive "c" dfC10prod dfC10ref dfC10ref (by decide) (by decide)
    (by decide) (by decide) (by decide) (by decide)
